import Mathlib

/-!
Shallow embedding of the pairing-code issuance endpoint
(`public_api/endpoints/device_code.py` of selene-backend) and proofs of the
specified properties.

The endpoint builds a response dict `{state, token, expiration, code}`,
where `token` is the SHA-512 hex digest of a freshly drawn UUID string and
`code` is a 6-character string sampled from a fixed 22-character alphabet,
and tries to reserve the code in a shared cache with an atomic
set-if-not-exists-with-expiration call.  Randomness (the UUID draw and the
`random.choice` character draws) is modelled as explicit input streams; the
cache is modelled as an abstract state type with an atomic conditional-set
operation; raised Python exceptions are modelled with `Except`; the
side-effect history (token generation, code generation, cache-set attempts,
debug logging) is recorded in an explicit effect trace.
-/

set_option maxRecDepth 100000

namespace DeviceCode

/-! ### SHA-512 (FIPS 180-4), over `Nat` with explicit reduction mod 2^64.
Models Python's `hashlib.sha512`. -/

def w64 : Nat := 2 ^ 64

def add64 (a b : Nat) : Nat := (a + b) % w64

/-- Right rotation of a 64-bit word (input assumed `< 2^64`). -/
def rotr64 (x n : Nat) : Nat := x / 2 ^ n + x % 2 ^ n * 2 ^ (64 - n)

/-- Bitwise complement of a 64-bit word. -/
def not64 (x : Nat) : Nat := x ^^^ (w64 - 1)

def ch64 (x y z : Nat) : Nat := (x &&& y) ^^^ (not64 x &&& z)

def maj64 (x y z : Nat) : Nat := (x &&& y) ^^^ (x &&& z) ^^^ (y &&& z)

def bigSigma0 (x : Nat) : Nat := rotr64 x 28 ^^^ rotr64 x 34 ^^^ rotr64 x 39

def bigSigma1 (x : Nat) : Nat := rotr64 x 14 ^^^ rotr64 x 18 ^^^ rotr64 x 41

def smallSigma0 (x : Nat) : Nat := rotr64 x 1 ^^^ rotr64 x 8 ^^^ x / 2 ^ 7

def smallSigma1 (x : Nat) : Nat := rotr64 x 19 ^^^ rotr64 x 61 ^^^ x / 2 ^ 6

/-- The 80 SHA-512 round constants. -/
def K512 : List Nat :=
  [0x428a2f98d728ae22, 0x7137449123ef65cd, 0xb5c0fbcfec4d3b2f, 0xe9b5dba58189dbbc,
   0x3956c25bf348b538, 0x59f111f1b605d019, 0x923f82a4af194f9b, 0xab1c5ed5da6d8118,
   0xd807aa98a3030242, 0x12835b0145706fbe] ++
  [0x243185be4ee4b28c, 0x550c7dc3d5ffb4e2, 0x72be5d74f27b896f, 0x80deb1fe3b1696b1,
   0x9bdc06a725c71235, 0xc19bf174cf692694, 0xe49b69c19ef14ad2, 0xefbe4786384f25e3,
   0x0fc19dc68b8cd5b5, 0x240ca1cc77ac9c65] ++
  [0x2de92c6f592b0275, 0x4a7484aa6ea6e483, 0x5cb0a9dcbd41fbd4, 0x76f988da831153b5,
   0x983e5152ee66dfab, 0xa831c66d2db43210, 0xb00327c898fb213f, 0xbf597fc7beef0ee4,
   0xc6e00bf33da88fc2, 0xd5a79147930aa725] ++
  [0x06ca6351e003826f, 0x142929670a0e6e70, 0x27b70a8546d22ffc, 0x2e1b21385c26c926,
   0x4d2c6dfc5ac42aed, 0x53380d139d95b3df, 0x650a73548baf63de, 0x766a0abb3c77b2a8,
   0x81c2c92e47edaee6, 0x92722c851482353b] ++
  [0xa2bfe8a14cf10364, 0xa81a664bbc423001, 0xc24b8b70d0f89791, 0xc76c51a30654be30,
   0xd192e819d6ef5218, 0xd69906245565a910, 0xf40e35855771202a, 0x106aa07032bbd1b8,
   0x19a4c116b8d2d0c8, 0x1e376c085141ab53] ++
  [0x2748774cdf8eeb99, 0x34b0bcb5e19b48a8, 0x391c0cb3c5c95a63, 0x4ed8aa4ae3418acb,
   0x5b9cca4f7763e373, 0x682e6ff3d6b2b8a3, 0x748f82ee5defb2fc, 0x78a5636f43172f60,
   0x84c87814a1f0ab72, 0x8cc702081a6439ec] ++
  [0x90befffa23631e28, 0xa4506cebde82bde9, 0xbef9a3f7b2c67915, 0xc67178f2e372532b,
   0xca273eceea26619c, 0xd186b8c721c0c207, 0xeada7dd6cde0eb1e, 0xf57d4f7fee6ed178,
   0x06f067aa72176fba, 0x0a637dc5a2c898a6] ++
  [0x113f9804bef90dae, 0x1b710b35131c471b, 0x28db77f523047d84, 0x32caab7b40c72493,
   0x3c9ebe0a15c9bebc, 0x431d67c49c100d4c, 0x4cc5d4becb3e42b6, 0x597f299cfc657e2a,
   0x5fcb6fab3ad6faec, 0x6c44198c4a475817]

/-- The SHA-512 initial hash value. -/
def H512 : List Nat :=
  [0x6a09e667f3bcc908, 0xbb67ae8584caa73b, 0x3c6ef372fe94f82b, 0xa54ff53a5f1d36f1,
   0x510e527fade682d1, 0x9b05688c2b3e6c1f, 0x1f83d9abfb41bd6b, 0x5be0cd19137e2179]

/-- SHA-512 padding: append `0x80`, zero bytes to 112 mod 128, then the
message bit length as 16 big-endian bytes. -/
def padMessage (msg : List Nat) : List Nat :=
  let L := msg.length
  let zeros := (239 - L % 128) % 128
  msg ++ [0x80] ++ List.replicate zeros 0 ++
    (List.range 16).map (fun i => 8 * L / 2 ^ (8 * (15 - i)) % 256)

/-- Big-endian assembly of a word from bytes. -/
def bytesToWord (bs : List Nat) : Nat := bs.foldl (fun acc b => acc * 256 + b) 0

/-- The 16 64-bit message-schedule seed words of block `b` of a padded
message. -/
def blockWords (padded : List Nat) (b : Nat) : List Nat :=
  (List.range 16).map fun j =>
    bytesToWord ((List.range 8).map fun k => padded.getD (128 * b + 8 * j + k) 0)

/-- Extend the 16 seed words to the 80-word message schedule. -/
def extendSchedule (w : List Nat) : List Nat :=
  (List.range 64).foldl
    (fun acc _ =>
      let n := acc.length
      acc ++ [add64 (add64 (smallSigma1 (acc.getD (n - 2) 0)) (acc.getD (n - 7) 0))
                (add64 (smallSigma0 (acc.getD (n - 15) 0)) (acc.getD (n - 16) 0))])
    w

/-- One SHA-512 round on the 8-word working state. -/
def sha512Round (st : List Nat) (wk : Nat × Nat) : List Nat :=
  match st with
  | [a, b, c, d, e, f, g, h] =>
    let t1 := add64 h (add64 (bigSigma1 e) (add64 (ch64 e f g) (add64 wk.2 wk.1)))
    let t2 := add64 (bigSigma0 a) (maj64 a b c)
    [add64 t1 t2, a, b, c, add64 d t1, e, f, g]
  | st => st

/-- Process one block: run 80 rounds and add the result into the chaining
state. -/
def sha512Compress (H : List Nat) (seed : List Nat) : List Nat :=
  let w := extendSchedule seed
  let final := (List.zip w K512).foldl sha512Round H
  List.zipWith add64 H final

/-- SHA-512 digest of a byte sequence, as 8 64-bit words. -/
def sha512 (msg : List Nat) : List Nat :=
  let padded := padMessage msg
  (List.range (padded.length / 128)).foldl
    (fun H b => sha512Compress H (blockWords padded b)) H512

/-- Lowercase hexadecimal digit characters, in value order. -/
def hexAlphabet : List Char := "0123456789abcdef".data

def hexChar (n : Nat) : Char := hexAlphabet.getD n '0'

/-- A 64-bit word as 16 lowercase hex characters (zero-padded, big-endian). -/
def wordToHex (w : Nat) : List Char :=
  (List.range 16).map fun i => hexChar (w / 2 ^ (4 * (15 - i)) % 16)

/-- Hex digest string of a word-list digest (Python `hexdigest()`). -/
def hexdigest (digest : List Nat) : String :=
  String.mk (digest.foldr (fun w acc => wordToHex w ++ acc) [])

/-- UTF-8 encoding of one character, as bytes. -/
def utf8Char (c : Char) : List Nat :=
  let n := c.toNat
  if n < 0x80 then [n]
  else if n < 0x800 then [0xC0 + n / 64, 0x80 + n % 64]
  else if n < 0x10000 then [0xE0 + n / 4096, 0x80 + n / 64 % 64, 0x80 + n % 64]
  else [0xF0 + n / 262144, 0x80 + n / 4096 % 64, 0x80 + n / 64 % 64, 0x80 + n % 64]

/-- UTF-8 encoding of a string (Python `bytes(s, "utf-8")`). -/
def utf8Encode (s : String) : List Nat :=
  s.data.foldr (fun c acc => utf8Char c ++ acc) []

/-- `_generate_token`: SHA-512 hex digest of the (given) freshly drawn UUID
string.  The `uuid.uuid4()` draw is modelled as the explicit input `u`. -/
def generate_token (u : String) : String :=
  hexdigest (sha512 (utf8Encode u))

theorem sha512_empty_vector :
    hexdigest (sha512 []) =
      "cf83e1357eefb8bdf1542850d66d8007d620e4050b5715dc83f4a921d36ce9ce47d0d13c5d85f2b0ff8318d2877eec2f63b931bd47417a81a538327af927da3e" := by
  rfl

theorem sha512_abc_vector :
    generate_token "abc" =
      "ddaf35a193617abacc417349ae20413112e6fa4e89a97ea20a9eeee64b55d39a2192992a274fc1a836ba3c23a3feebbd454d4423643ce80e2a9ac94fa54ca49f" := by
  rfl

/-! ### Python values, dicts and request arguments -/

/-- A Python value as stored in the response dict: a string or an int. -/
inductive PyVal where
  | str : String → PyVal
  | int : Nat → PyVal
deriving DecidableEq, Repr

/-- Python `str()` of a value, as used by `str.format`. -/
def PyVal.toStr : PyVal → String
  | .str s => s
  | .int n => toString n

/-- A Python dict with string keys, as an insertion-ordered association
list (keys unique by construction of the operations below). -/
abbrev PyDict := List (String × PyVal)

/-- Python `d[k]` lookup (first match; `none` models a raised KeyError). -/
def dictGet : PyDict → String → Option PyVal
  | [], _ => none
  | (k', v) :: rest, k => if k' = k then some v else dictGet rest k

/-- Python `d.update(k=v)` / `d[k] = v`: overwrite in place if the key is
present, else append. -/
def dictUpdate : PyDict → String → PyVal → PyDict
  | [], k, v => [(k, v)]
  | (k', v') :: rest, k, v =>
    if k' = k then (k, v) :: rest else (k', v') :: dictUpdate rest k v

/-- Request args lookup: `request.args.get(k)`; `request.args[k]` is this
plus a KeyError on `none`. -/
def lookupArg : List (String × String) → String → Option String
  | [], _ => none
  | (k', v) :: rest, k => if k' = k then some v else lookupArg rest k

/-- JSON string escaping (quote and backslash; sufficient for the values
serialized here). -/
def jsonEscape (s : String) : String :=
  String.mk (s.data.foldr
    (fun c acc => if c = '"' ∨ c = '\\' then '\\' :: c :: acc else c :: acc) [])

def jsonOfVal : PyVal → String
  | .str s => "\"" ++ jsonEscape s ++ "\""
  | .int n => toString n

/-- Python `json.dumps` on a string-keyed dict, insertion order. -/
def json_dumps (d : PyDict) : String :=
  "\x7b" ++
    String.intercalate ", "
      (d.map fun p => "\"" ++ jsonEscape p.1 ++ "\": " ++ jsonOfVal p.2) ++
  "\x7d"

/-- A Python exception; the only ones this endpoint can raise are KeyErrors
from dict/args subscripting. -/
inductive PyError where
  | keyError : String → PyError
deriving DecidableEq, Repr

/-! ### The endpoint's constants and code generation -/

/-- The pairing-code alphabet (module constant `ALLOWED_CHARACTERS`). -/
def ALLOWED_CHARACTERS : String := "ACEFHJKLMNPRTUVWXY3479"

/-- Module constant `ONE_DAY`. -/
def ONE_DAY : Nat := 86400

/-- `_generate_pairing_code`: join of six `random.choice(ALLOWED_CHARACTERS)`
draws.  The random stream is modelled by `rand`, an infinite sequence of
character indices (each draw uniform over the 22 characters in Python);
`start` is the index of this call's first draw. -/
def generate_pairing_code (rand : Nat → Fin 22) (start : Nat) : String :=
  String.mk ((List.range 6).map fun j =>
    ALLOWED_CHARACTERS.data.getD (rand (start + j)).val 'A')

/-- Modelled from the spec: the key template `DEVICE_PAIRING_CODE_KEY` lives
in `selene.util.cache`, which is not part of the sources here; the spec
describes it as "a namespaced format string parameterized by the pairing
code value", e.g. `pairing_code:<code>`.  This is that template already
applied, via `str.format`, to the pairing code. -/
def DEVICE_PAIRING_CODE_KEY (pairing_code : String) : String :=
  "pairing_code:" ++ pairing_code

/-! ### The cache collaborator and the effect trace -/

/-- The cache collaborator interface: an abstract cache state `σ` with the
atomic conditional set.  `set_if_not_exists_with_expiration key value ttl`
returns `true` iff this call created the key, together with the new state. -/
structure CacheModel (σ : Type) where
  setIfNotExists : σ → String → String → Nat → Bool × σ

/-- One observable side effect of a request.  `setAttempt` records the key,
the dict that was serialized as the value, the TTL and the returned flag. -/
inductive Effect where
  | genToken : Effect
  | genCode : String → Effect
  | setAttempt : String → PyDict → Nat → Bool → Effect
  | logDebug : String → Effect
deriving DecidableEq, Repr

/-- The cache-set attempts of a trace, in order: key, serialized dict, TTL,
result flag. -/
def setAttemptsOf (t : List Effect) : List (String × PyDict × Nat × Bool) :=
  t.filterMap fun e =>
    match e with
    | .setAttempt k v x r => some (k, v, x, r)
    | _ => none

/-- Number of token generations in a trace. -/
def tokenGens (t : List Effect) : Nat :=
  t.countP fun e =>
    match e with
    | .genToken => true
    | _ => false

/-! ### The endpoint -/

/-- The cache value assembled by `_add_pairing_code_to_cache`:
`dict(**response_data)` plus `packaging_type` when the optional `packaging`
request arg is present. -/
def packagedValue (args : List (String × String)) (response_data : PyDict) : PyDict :=
  match lookupArg args "packaging" with
  | some p => dictUpdate response_data "packaging_type" (.str p)
  | none => response_data

/-- `_add_pairing_code_to_cache`: derive the cache key from
`response_data["code"]`, serialize the (possibly packaging-extended) copy of
the dict, attempt the atomic conditional set, and on failure format the
debug log message — which subscripts `response_data["pairing_code"]`, a key
the dict never holds, so the failure branch raises a KeyError.  Returns the
flag, the new cache state and the effects, or the raised error. -/
def add_pairing_code_to_cache {σ : Type} (cm : CacheModel σ)
    (args : List (String × String)) (response_data : PyDict) (s : σ) :
    Except PyError Bool × σ × List Effect :=
  match dictGet response_data "code" with
  | none => (.error (.keyError "code"), s, [])
  | some codeVal =>
    let cache_key := DEVICE_PAIRING_CODE_KEY codeVal.toStr
    let cache_value := packagedValue args response_data
    let pr := cm.setIfNotExists s cache_key (json_dumps cache_value) ONE_DAY
    let eff := Effect.setAttempt cache_key cache_value ONE_DAY pr.1
    if pr.1 then (.ok true, pr.2, [eff])
    else
      match dictGet response_data "pairing_code" with
      | none => (.error (.keyError "pairing_code"), pr.2, [eff])
      | some v =>
        (.ok false, pr.2,
          [eff, .logDebug ("Pairing code " ++ v.toStr ++ " exists, generating new code")])

/-- The `while not added_to_cache` loop of `_build_response`, with fuel:
`(.ok none, _, _)` means the fuel ran out with the loop still running.
Iteration `i` draws characters `6*i .. 6*i+5` of the random stream. -/
def buildLoop {σ : Type} (cm : CacheModel σ) (args : List (String × String))
    (rand : Nat → Fin 22) :
    Nat → PyDict → Nat → σ → Except PyError (Option PyDict) × σ × List Effect
  | 0, _, _, s => (.ok none, s, [])
  | fuel + 1, response_data, i, s =>
    let pairing_code := generate_pairing_code rand (6 * i)
    let genEffs : List Effect :=
      [.genCode pairing_code, .logDebug ("Generated pairing code " ++ pairing_code)]
    let rd := dictUpdate response_data "code" (.str pairing_code)
    match add_pairing_code_to_cache cm args rd s with
    | (.error e, s', effs) => (.error e, s', genEffs ++ effs)
    | (.ok true, s', effs) => (.ok (some rd), s', genEffs ++ effs)
    | (.ok false, s', effs) =>
      let rest := buildLoop cm args rand fuel rd (i + 1) s'
      (rest.1, rest.2.1, genEffs ++ effs ++ rest.2.2)

/-- `_build_response`: look up the required `state` arg (KeyError when
absent, before anything else runs), generate the token once, then run the
cache-insert loop.  `u` is the `uuid.uuid4()` draw backing the token. -/
def build_response {σ : Type} (cm : CacheModel σ) (args : List (String × String))
    (u : String) (rand : Nat → Fin 22) (fuel : Nat) (s : σ) :
    Except PyError (Option PyDict) × σ × List Effect :=
  match lookupArg args "state" with
  | none => (.error (.keyError "state"), s, [])
  | some st =>
    let response_data : PyDict :=
      [("state", .str st), ("token", .str (generate_token u)), ("expiration", .int ONE_DAY)]
    let r := buildLoop cm args rand fuel response_data 0 s
    (r.1, r.2.1, Effect.genToken :: r.2.2)

/-- `DeviceCodeEndpoint.get`: the response data with HTTP 200. -/
def get {σ : Type} (cm : CacheModel σ) (args : List (String × String))
    (u : String) (rand : Nat → Fin 22) (fuel : Nat) (s : σ) :
    Except PyError (Option (PyDict × Nat)) × σ × List Effect :=
  let r := build_response cm args u rand fuel s
  (r.1.map (Option.map (fun rd => (rd, 200))), r.2.1, r.2.2)

/-! ### Concrete cache models -/

/-- The real cache viewed through its contract: a store of
(key, value, ttl) entries; the conditional set is atomic and creates the
key iff it is absent. -/
def mapCache : CacheModel (List (String × String × Nat)) where
  setIfNotExists := fun s k v x =>
    if (s.map Prod.fst).contains k then (false, s) else (true, (k, v, x) :: s)

/-- The spec's mock cache: rejects the first `n` set attempts, accepts from
then on; the state counts the attempts so far. -/
def rejectFirstCache (n : Nat) : CacheModel Nat where
  setIfNotExists := fun s _ _ _ => (decide (n ≤ s), s + 1)

/-! ### Dictionary computation lemmas (literal keys, arbitrary values) -/

theorem dictUpdate_code3 (a b c v : PyVal) :
    dictUpdate [("state", a), ("token", b), ("expiration", c)] "code" v =
      [("state", a), ("token", b), ("expiration", c), ("code", v)] := rfl

theorem dictGet4_state (a b c v : PyVal) :
    dictGet [("state", a), ("token", b), ("expiration", c), ("code", v)] "state" = some a := rfl

theorem dictGet4_token (a b c v : PyVal) :
    dictGet [("state", a), ("token", b), ("expiration", c), ("code", v)] "token" = some b := rfl

theorem dictGet4_expiration (a b c v : PyVal) :
    dictGet [("state", a), ("token", b), ("expiration", c), ("code", v)] "expiration" =
      some c := rfl

theorem dictGet4_code (a b c v : PyVal) :
    dictGet [("state", a), ("token", b), ("expiration", c), ("code", v)] "code" = some v := rfl

theorem dictGet4_pairing (a b c v : PyVal) :
    dictGet [("state", a), ("token", b), ("expiration", c), ("code", v)] "pairing_code" =
      none := rfl

theorem dictGet4_packaging (a b c v : PyVal) :
    dictGet [("state", a), ("token", b), ("expiration", c), ("code", v)] "packaging_type" =
      none := rfl

theorem packagedValue_state (args : List (String × String)) (a b c v : PyVal) :
    dictGet (packagedValue args [("state", a), ("token", b), ("expiration", c), ("code", v)])
      "state" = some a := by
  unfold packagedValue; cases lookupArg args "packaging" <;> rfl

theorem packagedValue_token (args : List (String × String)) (a b c v : PyVal) :
    dictGet (packagedValue args [("state", a), ("token", b), ("expiration", c), ("code", v)])
      "token" = some b := by
  unfold packagedValue; cases lookupArg args "packaging" <;> rfl

theorem packagedValue_expiration (args : List (String × String)) (a b c v : PyVal) :
    dictGet (packagedValue args [("state", a), ("token", b), ("expiration", c), ("code", v)])
      "expiration" = some c := by
  unfold packagedValue; cases lookupArg args "packaging" <;> rfl

theorem packagedValue_code (args : List (String × String)) (a b c v : PyVal) :
    dictGet (packagedValue args [("state", a), ("token", b), ("expiration", c), ("code", v)])
      "code" = some v := by
  unfold packagedValue; cases lookupArg args "packaging" <;> rfl

theorem packagedValue_packaging (args : List (String × String)) (a b c v : PyVal) :
    dictGet (packagedValue args [("state", a), ("token", b), ("expiration", c), ("code", v)])
      "packaging_type" = (lookupArg args "packaging").map PyVal.str := by
  unfold packagedValue; cases lookupArg args "packaging" <;> rfl

/-! ### Characterization of `build_response` runs -/

/-- Missing `state` arg: KeyError before any effect, cache untouched. -/
theorem build_response_noState {σ : Type} (cm : CacheModel σ) (args : List (String × String))
    (u : String) (rand : Nat → Fin 22) (fuel : Nat) (s : σ)
    (h : lookupArg args "state" = none) :
    build_response cm args u rand fuel s = (.error (.keyError "state"), s, []) := by
  simp [build_response, h]

/-- Zero fuel: the loop is still running; only the token was generated. -/
theorem build_response_zero {σ : Type} (cm : CacheModel σ) (args : List (String × String))
    (u : String) (rand : Nat → Fin 22) (s : σ) (st : String)
    (h : lookupArg args "state" = some st) :
    build_response cm args u rand 0 s = (.ok none, s, [.genToken]) := by
  simp [build_response, h, buildLoop]

/-- With fuel, the loop runs exactly one iteration: a fresh code, one atomic
set attempt; on success the response is returned, on collision the log
statement's `response_data["pairing_code"]` subscript raises a KeyError. -/
theorem build_response_succ {σ : Type} (cm : CacheModel σ) (args : List (String × String))
    (u : String) (rand : Nat → Fin 22) (f : Nat) (s : σ) (st : String)
    (h : lookupArg args "state" = some st) :
    build_response cm args u rand (f + 1) s =
      ((if (cm.setIfNotExists s (DEVICE_PAIRING_CODE_KEY (generate_pairing_code rand 0))
              (json_dumps (packagedValue args
                [("state", .str st), ("token", .str (generate_token u)),
                 ("expiration", .int ONE_DAY), ("code", .str (generate_pairing_code rand 0))]))
              ONE_DAY).1 then
          Except.ok (some
            [("state", .str st), ("token", .str (generate_token u)),
             ("expiration", .int ONE_DAY), ("code", .str (generate_pairing_code rand 0))])
        else Except.error (.keyError "pairing_code")),
       (cm.setIfNotExists s (DEVICE_PAIRING_CODE_KEY (generate_pairing_code rand 0))
          (json_dumps (packagedValue args
            [("state", .str st), ("token", .str (generate_token u)),
             ("expiration", .int ONE_DAY), ("code", .str (generate_pairing_code rand 0))]))
          ONE_DAY).2,
       [.genToken, .genCode (generate_pairing_code rand 0),
        .logDebug ("Generated pairing code " ++ generate_pairing_code rand 0),
        .setAttempt (DEVICE_PAIRING_CODE_KEY (generate_pairing_code rand 0))
          (packagedValue args
            [("state", .str st), ("token", .str (generate_token u)),
             ("expiration", .int ONE_DAY), ("code", .str (generate_pairing_code rand 0))])
          ONE_DAY
          (cm.setIfNotExists s (DEVICE_PAIRING_CODE_KEY (generate_pairing_code rand 0))
            (json_dumps (packagedValue args
              [("state", .str st), ("token", .str (generate_token u)),
               ("expiration", .int ONE_DAY), ("code", .str (generate_pairing_code rand 0))]))
            ONE_DAY).1]) := by
  cases hpr : cm.setIfNotExists s (DEVICE_PAIRING_CODE_KEY (generate_pairing_code rand 0))
      (json_dumps (packagedValue args
        [("state", .str st), ("token", .str (generate_token u)),
         ("expiration", .int ONE_DAY), ("code", .str (generate_pairing_code rand 0))]))
      ONE_DAY with
  | mk added s' =>
    cases added <;>
      simp [build_response, h, buildLoop, add_pairing_code_to_cache, dictUpdate_code3,
        dictGet4_code, dictGet4_pairing, PyVal.toStr, hpr]

/-! ### Shape of the generated token and pairing code -/

theorem string_mk_length (l : List Char) : (String.mk l).length = l.length := rfl

theorem string_mk_data (l : List Char) : (String.mk l).data = l := rfl

theorem sha512Round_length (st : List Nat) (p : Nat × Nat) :
    (sha512Round st p).length = st.length := by
  rcases st with _ | ⟨a, _ | ⟨b, _ | ⟨c, _ | ⟨d, _ | ⟨e, _ | ⟨f, _ | ⟨g, _ | ⟨h, _ | ⟨i, r⟩⟩⟩⟩⟩⟩⟩⟩⟩ <;>
    rfl

theorem foldl_sha512Round_length (l : List (Nat × Nat)) :
    ∀ st : List Nat, (l.foldl sha512Round st).length = st.length := by
  induction l with
  | nil => intro st; rfl
  | cons p rest ih => intro st; rw [List.foldl_cons, ih, sha512Round_length]

theorem sha512Compress_length (H seed : List Nat) (h : H.length = 8) :
    (sha512Compress H seed).length = 8 := by
  simp [sha512Compress, foldl_sha512Round_length, h]

theorem sha512_foldl_length (l : List Nat) (padded : List Nat) :
    ∀ H : List Nat, H.length = 8 →
      (l.foldl (fun H b => sha512Compress H (blockWords padded b)) H).length = 8 := by
  induction l with
  | nil => intro H h; exact h
  | cons b rest ih =>
    intro H h
    rw [List.foldl_cons]
    exact ih _ (sha512Compress_length _ _ h)

theorem sha512_length (msg : List Nat) : (sha512 msg).length = 8 := by
  unfold sha512
  exact sha512_foldl_length _ _ _ rfl

theorem wordToHex_length (w : Nat) : (wordToHex w).length = 16 := by
  simp [wordToHex]

theorem hexdigest_length (d : List Nat) : (hexdigest d).length = 16 * d.length := by
  unfold hexdigest
  rw [string_mk_length]
  induction d with
  | nil => rfl
  | cons w rest ih =>
    simp only [List.foldr_cons, List.length_append, wordToHex_length, ih, List.length_cons]
    ring

theorem generate_token_length (u : String) : (generate_token u).length = 128 := by
  unfold generate_token
  rw [hexdigest_length, sha512_length]

theorem hexChar_mem (n : Nat) (h : n < 16) : hexChar n ∈ hexAlphabet := by
  have hall : ∀ m : Fin 16, hexChar m.val ∈ hexAlphabet := by decide
  exact hall ⟨n, h⟩

theorem mem_wordToHex (ch : Char) (w : Nat) (h : ch ∈ wordToHex w) : ch ∈ hexAlphabet := by
  simp only [wordToHex, List.mem_map, List.mem_range] at h
  obtain ⟨i, _, rfl⟩ := h
  exact hexChar_mem _ (Nat.mod_lt _ (by norm_num))

theorem mem_hexdigest (ch : Char) (d : List Nat) (h : ch ∈ (hexdigest d).data) :
    ch ∈ hexAlphabet := by
  unfold hexdigest at h
  rw [string_mk_data] at h
  induction d with
  | nil => simp at h
  | cons w rest ih =>
    simp only [List.foldr_cons, List.mem_append] at h
    rcases h with h | h
    · exact mem_wordToHex _ _ h
    · exact ih h

theorem generate_token_hex (u : String) (ch : Char) (h : ch ∈ (generate_token u).data) :
    ch ∈ hexAlphabet := mem_hexdigest ch _ h

theorem generate_pairing_code_length (rand : Nat → Fin 22) (start : Nat) :
    (generate_pairing_code rand start).length = 6 := by
  simp [generate_pairing_code, string_mk_length]

theorem alphabet_getD_mem : ∀ i : Fin 22,
    ALLOWED_CHARACTERS.data.getD i.val 'A' ∈ ALLOWED_CHARACTERS.data := by decide

theorem generate_pairing_code_chars (rand : Nat → Fin 22) (start : Nat) (ch : Char)
    (h : ch ∈ (generate_pairing_code rand start).data) : ch ∈ ALLOWED_CHARACTERS.data := by
  simp only [generate_pairing_code, string_mk_data, List.mem_map, List.mem_range] at h
  obtain ⟨j, _, rfl⟩ := h
  exact alphabet_getD_mem _

/-- The result component of a one-iteration run. -/
theorem build_response_succ_fst {σ : Type} (cm : CacheModel σ) (args : List (String × String))
    (u : String) (rand : Nat → Fin 22) (f : Nat) (s : σ) (st : String)
    (h : lookupArg args "state" = some st) :
    (build_response cm args u rand (f + 1) s).1 =
      if (cm.setIfNotExists s (DEVICE_PAIRING_CODE_KEY (generate_pairing_code rand 0))
            (json_dumps (packagedValue args
              [("state", .str st), ("token", .str (generate_token u)),
               ("expiration", .int ONE_DAY), ("code", .str (generate_pairing_code rand 0))]))
            ONE_DAY).1 then
        Except.ok (some
          [("state", .str st), ("token", .str (generate_token u)),
           ("expiration", .int ONE_DAY), ("code", .str (generate_pairing_code rand 0))])
      else Except.error (.keyError "pairing_code") := by
  rw [build_response_succ cm args u rand f s st h]

/-- The effect-trace component of a one-iteration run. -/
theorem build_response_succ_trace {σ : Type} (cm : CacheModel σ) (args : List (String × String))
    (u : String) (rand : Nat → Fin 22) (f : Nat) (s : σ) (st : String)
    (h : lookupArg args "state" = some st) :
    (build_response cm args u rand (f + 1) s).2.2 =
      [.genToken, .genCode (generate_pairing_code rand 0),
       .logDebug ("Generated pairing code " ++ generate_pairing_code rand 0),
       .setAttempt (DEVICE_PAIRING_CODE_KEY (generate_pairing_code rand 0))
         (packagedValue args
           [("state", .str st), ("token", .str (generate_token u)),
            ("expiration", .int ONE_DAY), ("code", .str (generate_pairing_code rand 0))])
         ONE_DAY
         (cm.setIfNotExists s (DEVICE_PAIRING_CODE_KEY (generate_pairing_code rand 0))
           (json_dumps (packagedValue args
             [("state", .str st), ("token", .str (generate_token u)),
              ("expiration", .int ONE_DAY), ("code", .str (generate_pairing_code rand 0))]))
           ONE_DAY).1] := by
  rw [build_response_succ cm args u rand f s st h]

/-! ### The claims -/

/-- Claim C2: for every issuance request (with the required `state` arg
present), the token is generated exactly once, before the retry loop begins
(it is the first effect of the trace), every cache-set attempt carries that
same token in its record, and the returned record's token is that token:
regenerating the pairing code never regenerates the token. -/
theorem claim_C2_token_generated_once {σ : Type} (cm : CacheModel σ)
    (args : List (String × String)) (u : String) (rand : Nat → Fin 22) (fuel : Nat)
    (s : σ) (st : String) (h : lookupArg args "state" = some st) :
    tokenGens (build_response cm args u rand fuel s).2.2 = 1 ∧
    (build_response cm args u rand fuel s).2.2.head? = some .genToken ∧
    (∀ a ∈ setAttemptsOf (build_response cm args u rand fuel s).2.2,
      dictGet a.2.1 "token" = some (.str (generate_token u))) ∧
    (∀ rd : PyDict, (build_response cm args u rand fuel s).1 = .ok (some rd) →
      dictGet rd "token" = some (.str (generate_token u))) := by
  cases fuel with
  | zero =>
    have e := build_response_zero cm args u rand s st h
    rw [e]
    refine ⟨rfl, rfl, ?_, ?_⟩
    · intro a ha
      simp [setAttemptsOf] at ha
    · intro rd hrd
      simp at hrd
  | succ f =>
    have e1 := build_response_succ_fst cm args u rand f s st h
    have e2 := build_response_succ_trace cm args u rand f s st h
    refine ⟨?_, ?_, ?_, ?_⟩
    · rw [e2]
      rfl
    · rw [e2]
      rfl
    · rw [e2]
      intro a ha
      simp [setAttemptsOf] at ha
      subst ha
      exact packagedValue_token args _ _ _ _
    · rw [e1]
      intro rd hrd
      split at hrd
      · simp only [Except.ok.injEq, Option.some.injEq] at hrd
        subst hrd
        exact dictGet4_token _ _ _ _
      · simp at hrd

/-- Claim C3: every completed issuance returns a record whose code is a
string of exactly 6 characters, each drawn from the 22-character alphabet
`ACEFHJKLMNPRTUVWXY3479`. -/
theorem claim_C3_code_shape {σ : Type} (cm : CacheModel σ) (args : List (String × String))
    (u : String) (rand : Nat → Fin 22) (fuel : Nat) (s : σ) (rd : PyDict)
    (h : (build_response cm args u rand fuel s).1 = .ok (some rd)) :
    ∃ code : String, dictGet rd "code" = some (.str code) ∧ code.length = 6 ∧
      ∀ ch ∈ code.data, ch ∈ ALLOWED_CHARACTERS.data := by
  cases hstate : lookupArg args "state" with
  | none =>
    rw [build_response_noState cm args u rand fuel s hstate] at h
    simp at h
  | some st =>
    cases fuel with
    | zero =>
      rw [build_response_zero cm args u rand s st hstate] at h
      simp at h
    | succ f =>
      rw [build_response_succ_fst cm args u rand f s st hstate] at h
      split at h
      · simp only [Except.ok.injEq, Option.some.injEq] at h
        subst h
        exact ⟨generate_pairing_code rand 0, dictGet4_code _ _ _ _,
          generate_pairing_code_length rand 0,
          fun ch hch => generate_pairing_code_chars rand 0 ch hch⟩
      · simp at h

/-- Claim C4: every completed issuance returns a record whose token is the
SHA-512 hex digest of the freshly generated UUID string: 128 characters,
all lowercase hexadecimal digits. -/
theorem claim_C4_token_shape {σ : Type} (cm : CacheModel σ) (args : List (String × String))
    (u : String) (rand : Nat → Fin 22) (fuel : Nat) (s : σ) (rd : PyDict)
    (h : (build_response cm args u rand fuel s).1 = .ok (some rd)) :
    dictGet rd "token" = some (.str (generate_token u)) ∧
    (generate_token u).length = 128 ∧
    (∀ ch ∈ (generate_token u).data, ch ∈ hexAlphabet) ∧
    generate_token u = hexdigest (sha512 (utf8Encode u)) := by
  cases hstate : lookupArg args "state" with
  | none =>
    rw [build_response_noState cm args u rand fuel s hstate] at h
    simp at h
  | some st =>
    cases fuel with
    | zero =>
      rw [build_response_zero cm args u rand s st hstate] at h
      simp at h
    | succ f =>
      rw [build_response_succ_fst cm args u rand f s st hstate] at h
      split at h
      · simp only [Except.ok.injEq, Option.some.injEq] at h
        subst h
        exact ⟨dictGet4_token _ _ _ _, generate_token_length u,
          fun ch hch => generate_token_hex u ch hch, rfl⟩
      · simp at h

/-- Claim C6: within a single issuance request, no two cache-set attempts
use the same key: the list of keys attempted by the run has no duplicates
(the code makes at most one set attempt per request, because a collision
aborts the request with a KeyError before a second attempt can happen). -/
theorem claim_C6_attempt_keys_distinct {σ : Type} (cm : CacheModel σ)
    (args : List (String × String)) (u : String) (rand : Nat → Fin 22) (fuel : Nat)
    (s : σ) :
    ((setAttemptsOf (build_response cm args u rand fuel s).2.2).map Prod.fst).Nodup := by
  cases hstate : lookupArg args "state" with
  | none =>
    rw [build_response_noState cm args u rand fuel s hstate]
    simp [setAttemptsOf]
  | some st =>
    cases fuel with
    | zero =>
      rw [build_response_zero cm args u rand s st hstate]
      simp [setAttemptsOf]
    | succ f =>
      rw [build_response_succ_trace cm args u rand f s st hstate]
      simp [setAttemptsOf]

/-- Claim C7: every record written to the cache carries `packaging_type`
exactly when the optional `packaging` request arg is supplied (equal to the
supplied value, and no `packaging_type` key otherwise), and echoes the
caller's `state` unmodified. -/
theorem claim_C7_packaging_iff_supplied {σ : Type} (cm : CacheModel σ)
    (args : List (String × String)) (u : String) (rand : Nat → Fin 22) (fuel : Nat)
    (s : σ) (st : String) (h : lookupArg args "state" = some st)
    (a : String × PyDict × Nat × Bool)
    (ha : a ∈ setAttemptsOf (build_response cm args u rand fuel s).2.2) :
    dictGet a.2.1 "packaging_type" = (lookupArg args "packaging").map PyVal.str ∧
    dictGet a.2.1 "state" = some (.str st) := by
  cases fuel with
  | zero =>
    rw [build_response_zero cm args u rand s st h] at ha
    simp [setAttemptsOf] at ha
  | succ f =>
    rw [build_response_succ_trace cm args u rand f s st h] at ha
    simp [setAttemptsOf] at ha
    subst ha
    exact ⟨packagedValue_packaging args _ _ _ _, packagedValue_state args _ _ _ _⟩

/-- Claim C8: every cache-set attempt of a run uses TTL exactly 86400
seconds, and every completed issuance returns a record whose expiration
field is exactly 86400. -/
theorem claim_C8_expiration_86400 {σ : Type} (cm : CacheModel σ)
    (args : List (String × String)) (u : String) (rand : Nat → Fin 22) (fuel : Nat)
    (s : σ) :
    (∀ a ∈ setAttemptsOf (build_response cm args u rand fuel s).2.2, a.2.2.1 = 86400) ∧
    (∀ rd : PyDict, (build_response cm args u rand fuel s).1 = .ok (some rd) →
      dictGet rd "expiration" = some (.int 86400)) := by
  cases hstate : lookupArg args "state" with
  | none =>
    have e := build_response_noState cm args u rand fuel s hstate
    rw [e]
    refine ⟨?_, ?_⟩
    · intro a ha
      simp [setAttemptsOf] at ha
    · intro rd hrd
      simp at hrd
  | some st =>
    cases fuel with
    | zero =>
      have e := build_response_zero cm args u rand s st hstate
      rw [e]
      refine ⟨?_, ?_⟩
      · intro a ha
        simp [setAttemptsOf] at ha
      · intro rd hrd
        simp at hrd
    | succ f =>
      refine ⟨?_, ?_⟩
      · rw [build_response_succ_trace cm args u rand f s st hstate]
        intro a ha
        simp [setAttemptsOf] at ha
        subst ha
        rfl
      · rw [build_response_succ_fst cm args u rand f s st hstate]
        intro rd hrd
        split at hrd
        · simp only [Except.ok.injEq, Option.some.injEq] at hrd
          subst hrd
          exact dictGet4_expiration _ _ _ _
        · simp at hrd

/-- Claim C9: when the required `state` arg is absent, the run raises a
KeyError from the argument lookup before any token generation, code
generation or cache-set attempt, and the cache state is unchanged. -/
theorem claim_C9_missing_state_no_effects {σ : Type} (cm : CacheModel σ)
    (args : List (String × String)) (u : String) (rand : Nat → Fin 22) (fuel : Nat)
    (s : σ) (h : lookupArg args "state" = none) :
    build_response cm args u rand fuel s = (.error (.keyError "state"), s, []) ∧
    tokenGens (build_response cm args u rand fuel s).2.2 = 0 ∧
    setAttemptsOf (build_response cm args u rand fuel s).2.2 = [] := by
  have e := build_response_noState cm args u rand fuel s h
  refine ⟨e, ?_, ?_⟩ <;> rw [e] <;> rfl

/-- Claim C10: on every successful issuance the single created cache entry
corresponds exactly to the returned response: its key is the key template
applied to the returned code, its record's state/token/expiration/code
fields equal the response's, and the response consists of exactly the keys
state, token, expiration, code — never `packaging_type`. -/
theorem claim_C10_cache_matches_response {σ : Type} (cm : CacheModel σ)
    (args : List (String × String)) (u : String) (rand : Nat → Fin 22) (fuel : Nat)
    (s : σ) (rd : PyDict)
    (h : (build_response cm args u rand fuel s).1 = .ok (some rd)) :
    rd.map Prod.fst = ["state", "token", "expiration", "code"] ∧
    dictGet rd "packaging_type" = none ∧
    ∃ code cv, dictGet rd "code" = some (.str code) ∧
      setAttemptsOf (build_response cm args u rand fuel s).2.2 =
        [(DEVICE_PAIRING_CODE_KEY code, cv, ONE_DAY, true)] ∧
      dictGet cv "state" = dictGet rd "state" ∧
      dictGet cv "token" = dictGet rd "token" ∧
      dictGet cv "expiration" = dictGet rd "expiration" ∧
      dictGet cv "code" = dictGet rd "code" := by
  cases hstate : lookupArg args "state" with
  | none =>
    rw [build_response_noState cm args u rand fuel s hstate] at h
    simp at h
  | some st =>
    cases fuel with
    | zero =>
      rw [build_response_zero cm args u rand s st hstate] at h
      simp at h
    | succ f =>
      have e2 := build_response_succ_trace cm args u rand f s st hstate
      rw [build_response_succ_fst cm args u rand f s st hstate] at h
      split at h
      case isTrue hcond =>
        simp only [Except.ok.injEq, Option.some.injEq] at h
        subst h
        refine ⟨rfl, dictGet4_packaging _ _ _ _, generate_pairing_code rand 0,
          packagedValue args
            [("state", .str st), ("token", .str (generate_token u)),
             ("expiration", .int ONE_DAY), ("code", .str (generate_pairing_code rand 0))],
          dictGet4_code _ _ _ _, ?_, ?_, ?_, ?_, ?_⟩
        · rw [e2, hcond]
          simp [setAttemptsOf]
        · simp [packagedValue_state, dictGet4_state]
        · simp [packagedValue_token, dictGet4_token]
        · simp [packagedValue_expiration, dictGet4_expiration]
        · simp [packagedValue_code, dictGet4_code]
      case isFalse hcond =>
        simp at h

/-! ### Concrete scenario: fixed UUID draw, constant random stream -/

/-- A fixed UUID draw for concrete runs. -/
def wUuid : String := "0b3f5a2c-9d4e-4f6a-8b1c-2d3e4f5a6b7c"

/-- A second fixed UUID draw for a second concurrent caller. -/
def wUuid2 : String := "9f8e7d6c-5b4a-4321-8edc-ba9876543210"

/-- SHA-512 hex digest of `wUuid` (the token of the concrete runs). -/
def wToken : String :=
  "f5da2f7bcc4b82132b9774181ccb3b05ecca1e0b421ad853f86ce16014cad13e157db44a0b26a84b23d10f003aa49589461a3f765e6227420cf3ee30310290c6"

/-- A constant random stream: every character draw picks index 0, so every
generated pairing code is `AAAAAA`. -/
def wRand : Nat → Fin 22 := fun _ => 0

def wArgs : List (String × String) := [("state", "abc123")]

def wArgsPack : List (String × String) := [("state", "abc123"), ("packaging", "ovos-core")]

def wEmptyCache : List (String × String × Nat) := []

/-- The response record of the concrete successful run. -/
def wResponse : PyDict :=
  [("state", .str "abc123"), ("token", .str wToken),
   ("expiration", .int 86400), ("code", .str "AAAAAA")]

/-- The cache record of the concrete successful run with `packaging`
supplied. -/
def wCachedPack : PyDict :=
  [("state", .str "abc123"), ("token", .str wToken),
   ("expiration", .int 86400), ("code", .str "AAAAAA"),
   ("packaging_type", .str "ovos-core")]

/-- Claim C1: the claim's own scenario refutes it on this code.  With the
spec's mock cache that rejects the first set attempt and would accept the
next, issuance does not retry and complete: the collision branch subscripts
`response_data["pairing_code"]`, a key the record does not have (its key is
`code`), so the request raises a KeyError instead of logging the collision
and retrying. -/
theorem claim_C1_collision_raises_keyerror :
    (build_response (rejectFirstCache 1) wArgs wUuid wRand 5 0).1 =
      .error (.keyError "pairing_code") := by
  rfl

/-- Claim C5: of two calls racing on the same atomic cache and drawing the
same pairing code, the winner does return that code, but the loser does not
retry with a new code: its collision branch raises a KeyError, so the two
calls do not yield two distinct codes. -/
theorem claim_C5_loser_crashes_instead_of_retrying :
    (build_response mapCache wArgs wUuid wRand 5 wEmptyCache).1 =
      .ok (some wResponse) ∧
    (build_response mapCache wArgs wUuid2 wRand 5
        (build_response mapCache wArgs wUuid wRand 5 wEmptyCache).2.1).1 =
      .error (.keyError "pairing_code") := by
  exact ⟨rfl, rfl⟩

/-! ### Witnesses: the claims applied to the concrete scenario -/

/-- Witness for C2 at the concrete run. -/
theorem claim_C2_witness :
    tokenGens (build_response mapCache wArgs wUuid wRand 1 wEmptyCache).2.2 = 1 ∧
    (build_response mapCache wArgs wUuid wRand 1 wEmptyCache).2.2.head? =
      some .genToken ∧
    (∀ a ∈ setAttemptsOf (build_response mapCache wArgs wUuid wRand 1 wEmptyCache).2.2,
      dictGet a.2.1 "token" = some (.str (generate_token wUuid))) ∧
    (∀ rd : PyDict,
      (build_response mapCache wArgs wUuid wRand 1 wEmptyCache).1 = .ok (some rd) →
      dictGet rd "token" = some (.str (generate_token wUuid))) :=
  claim_C2_token_generated_once mapCache wArgs wUuid wRand 1 wEmptyCache "abc123" rfl

/-- Witness for C3 at the concrete run. -/
theorem claim_C3_witness :
    ∃ code : String, dictGet wResponse "code" = some (.str code) ∧ code.length = 6 ∧
      ∀ ch ∈ code.data, ch ∈ ALLOWED_CHARACTERS.data :=
  claim_C3_code_shape mapCache wArgs wUuid wRand 1 wEmptyCache wResponse (by rfl)

/-- Witness for C4 at the concrete run. -/
theorem claim_C4_witness :
    dictGet wResponse "token" = some (.str (generate_token wUuid)) ∧
    (generate_token wUuid).length = 128 ∧
    (∀ ch ∈ (generate_token wUuid).data, ch ∈ hexAlphabet) ∧
    generate_token wUuid = hexdigest (sha512 (utf8Encode wUuid)) :=
  claim_C4_token_shape mapCache wArgs wUuid wRand 1 wEmptyCache wResponse (by rfl)

/-- Witness for C7 at the concrete run with `packaging` supplied. -/
theorem claim_C7_witness :
    dictGet ("pairing_code:AAAAAA", wCachedPack, 86400, true).2.1 "packaging_type" =
      (lookupArg wArgsPack "packaging").map PyVal.str ∧
    dictGet ("pairing_code:AAAAAA", wCachedPack, 86400, true).2.1 "state" =
      some (.str "abc123") :=
  claim_C7_packaging_iff_supplied mapCache wArgsPack wUuid wRand 1 wEmptyCache
    "abc123" rfl ("pairing_code:AAAAAA", wCachedPack, 86400, true) (by decide)

/-- Witness for C9 at a concrete request without `state`. -/
theorem claim_C9_witness :
    build_response mapCache [("packaging", "ovos-core")] wUuid wRand 3 wEmptyCache =
      (.error (.keyError "state"), wEmptyCache, []) ∧
    tokenGens
      (build_response mapCache [("packaging", "ovos-core")] wUuid wRand 3 wEmptyCache).2.2 =
      0 ∧
    setAttemptsOf
      (build_response mapCache [("packaging", "ovos-core")] wUuid wRand 3 wEmptyCache).2.2 =
      [] :=
  claim_C9_missing_state_no_effects mapCache [("packaging", "ovos-core")] wUuid wRand 3
    wEmptyCache rfl

/-- Witness for C10 at the concrete run. -/
theorem claim_C10_witness :
    wResponse.map Prod.fst = ["state", "token", "expiration", "code"] ∧
    dictGet wResponse "packaging_type" = none ∧
    ∃ code cv, dictGet wResponse "code" = some (.str code) ∧
      setAttemptsOf (build_response mapCache wArgs wUuid wRand 1 wEmptyCache).2.2 =
        [(DEVICE_PAIRING_CODE_KEY code, cv, ONE_DAY, true)] ∧
      dictGet cv "state" = dictGet wResponse "state" ∧
      dictGet cv "token" = dictGet wResponse "token" ∧
      dictGet cv "expiration" = dictGet wResponse "expiration" ∧
      dictGet cv "code" = dictGet wResponse "code" :=
  claim_C10_cache_matches_response mapCache wArgs wUuid wRand 1 wEmptyCache wResponse
    (by rfl)

end DeviceCode
